import Mathlib

/-!
Verification of the state-authority and change-detection engine of
`src/applications/WeatherApplication.ts` (foundry-simple-weather).

The TypeScript class is embedded shallowly: the mutable fields
`currentWeather` (the locally held record) and the persisted setting
`SettingKeys.lastWeatherData` (the shared store) become an explicit
`AppState`; each entry point becomes a function from state to state,
together with a log of the externally observable calls it makes
(generation-collaborator invocations, store writes, render signals).
Nullable TypeScript values become `Option`; `null` and `undefined` are
collapsed into `none` (the source's `isDefined` treats them alike, and
every field comparison it performs is guarded so that the distinction is
unobservable).  External collaborators whose source is not shown
(`generate`, `WeatherData.getTemperature` / `getDescription`, the
selection lists from `climateData`) are abstract parameters.
-/

set_option maxHeartbeats 1000000

namespace SimpleWeather

/-- Display-formatting fields of a calendar snapshot (`date.display` in the
source); opaque pass-through strings, not interpreted by the core. -/
structure DisplayData where
  date : String
  time : String
deriving DecidableEq, Repr

/-- `SimpleCalendar.DateData` as consumed by `WeatherApplication`: the five
temporal fields may each be `null`/`undefined` on the wire (both collapsed to
`none`), plus the weekday and display information read by `getData`. -/
structure DateData where
  second : Option Int
  minute : Option Int
  day : Option Int
  month : Option Int
  year : Option Int
  dayOfTheWeek : Nat
  weekdays : List String
  display : Option DisplayData
deriving DecidableEq, Repr

/-- Modelled from the spec: the climate member of `ClimateParameters`
(`climateData.ts` is not part of the shown source; `WeatherApplication.ts`
line 175 names the constructor `Climate.Cold`). -/
inductive Climate where
  | Cold
  | Temperate
  | Hot
deriving DecidableEq, Repr

/-- Modelled from the spec: the humidity member of `ClimateParameters`
(`WeatherApplication.ts` line 175 names the constructor `Humidity.Modest`). -/
inductive Humidity where
  | Barren
  | Modest
  | Verdant
deriving DecidableEq, Repr

/-- Modelled from the spec: the season member of `ClimateParameters`
(`WeatherApplication.ts` line 175 names the constructor `Season.Spring`). -/
inductive Season where
  | Spring
  | Summer
  | Fall
  | Winter
deriving DecidableEq, Repr

/-- Modelled from the spec: a `WeatherRecord` combines the `TimeSnapshot` it
was generated for with an opaque content payload produced by the external
generation collaborator (`WeatherData.ts` is not part of the shown source;
the core never inspects the payload). -/
structure WeatherData where
  date : Option DateData
  content : Nat
deriving DecidableEq, Repr

/-- Modelled from the spec: the external generation collaborator
`generate(climate, humidity, season, previousRecordOrAbsent) -> WeatherRecord`,
a pure function from the core's perspective; kept abstract. -/
def GenFn : Type := Climate → Humidity → Season → Option WeatherData → WeatherData

/-- The mutable state the engine touches: the locally held record
(`this.currentWeather`, absent until first load/generation) and the shared
store slot (`moduleSettings`, key `SettingKeys.lastWeatherData`). -/
structure AppState where
  currentWeather : Option WeatherData
  store : Option WeatherData
deriving DecidableEq, Repr

/-- Externally observable calls an entry point makes, in order. -/
inductive Event where
  | genCall (climate : Climate) (humidity : Humidity) (season : Season)
      (seed : Option WeatherData)
  | storeWrite (record : WeatherData)
  | render
deriving DecidableEq, Repr

/-- Result of running one entry point: the state afterwards, the observable
calls made, and whether it completed normally (`ok = false` models an
escaping exception: a `TypeError` from mutating a field of `undefined`, or a
rejected awaited store write). -/
structure StepOut where
  state : AppState
  events : List Event
  ok : Bool
deriving DecidableEq, Repr

/-- `isDefined` (lines 213-215): value is neither `undefined` nor `null`. -/
def isDefined {α : Type} (value : Option α) : Bool :=
  value.isSome

/-- `isDateTimeValid` (lines 204-211): all five temporal fields defined. -/
def isDateTimeValid (date : DateData) : Bool :=
  isDefined date.second && isDefined date.minute && isDefined date.day &&
    isDefined date.month && isDefined date.year

/-- `hasDateChanged` (lines 184-202).  `previous` is
`this.currentWeather?.date`; the parameter keeps the source's defensive
null-checks even though the one call site guards against a null argument. -/
def hasDateChanged (currentWeather : Option WeatherData)
    (currentDate : Option DateData) : Bool :=
  let previous := currentWeather.bind (fun w => w.date)
  match previous, currentDate with
  | none, some _ => true
  | some _, none => true
  | none, none => false
  | some p, some c =>
      if isDateTimeValid c then
        if c.day ≠ p.day || c.month ≠ p.month || c.year ≠ p.year then
          true
        else
          false
      else
        false

/-- `updateDateTime` (lines 135-157).  `gm` is the value `isClientGM()`
returns during the call; `writeOk` is the outcome of the awaited
`moduleSettings.set(SettingKeys.lastWeatherData, …)` (the in-memory field
assignment on line 148 precedes the write, so it persists even when the
write rejects; a rejected awaited write skips the final `render`).  A
`TypeError` from assigning `this.currentWeather.date` while
`currentWeather` is `undefined` is modelled by `ok = false` with no
further effect. -/
def updateDateTime (gm : Bool) (writeOk : Bool) (st : AppState)
    (currentDate : Option DateData) : StepOut :=
  match currentDate with
  | none => ⟨st, [], true⟩
  | some cd =>
      if hasDateChanged st.currentWeather currentDate then
        if gm then
          match st.currentWeather with
          | none => ⟨st, [], false⟩
          | some w =>
              let w' : WeatherData := { w with date := some cd }
              if writeOk then
                ⟨⟨some w', some w'⟩, [Event.storeWrite w', Event.render], true⟩
              else
                ⟨⟨some w', st.store⟩, [Event.storeWrite w'], false⟩
        else
          ⟨st, [Event.render], true⟩
      else
        match st.currentWeather with
        | none => ⟨st, [], false⟩
        | some w =>
            ⟨⟨some { w with date := some cd }, st.store⟩, [Event.render], true⟩

/-- `setWeather` (lines 161-181): bootstrap from the store; if the store is
empty and the client is the GM, generate a first record from the fixed
defaults with no seed and write it back (`moduleSettings.set` here is not
awaited, so `writeOk` only decides whether the store slot changes). -/
def setWeather (gen : GenFn) (gm : Bool) (writeOk : Bool)
    (st : AppState) : StepOut :=
  match st.store with
  | some weatherData =>
      ⟨⟨some weatherData, st.store⟩, [Event.render], true⟩
  | none =>
      if gm then
        let w := gen Climate.Cold Humidity.Modest Season.Spring none
        ⟨⟨some w, if writeOk then some w else st.store⟩,
          [Event.genCall Climate.Cold Humidity.Modest Season.Spring none,
            Event.storeWrite w, Event.render], true⟩
      else
        ⟨st, [Event.render], true⟩

/-- `onWeatherRegenerateClick` (lines 253-266).  `humidity`, `climate` and
`season` are the values read from the three selection elements (`null` when
an element is missing); when all three are present, generation runs with the
current record as seed, the result replaces the record and is written, and
the dialog re-renders (the write is not awaited, so `writeOk` only decides
whether the store slot changes). -/
def onWeatherRegenerateClick (gen : GenFn) (writeOk : Bool)
    (humidity : Option Humidity) (climate : Option Climate)
    (season : Option Season) (st : AppState) : StepOut :=
  match humidity, climate, season with
  | some h, some c, some s =>
      let w := gen c h s st.currentWeather
      ⟨⟨some w, if writeOk then some w else st.store⟩,
        [Event.genCall c h s st.currentWeather, Event.storeWrite w,
          Event.render], true⟩
  | _, _, _ => ⟨st, [], true⟩

/-- String a nullable numeric field renders to when concatenated with `+`
in the `formattedDate` template expression. -/
def showField (value : Option Int) : String :=
  match value with
  | some n => toString n
  | none => "null"

/-- The template-data object built by `getData` (lines 61-82); listener and
module-internal fields that no claim touches (`hideWeather`, `isGM`,
`weatherPanelOpen`) are kept alongside the weather-derived display fields,
the selection lists and the window position. -/
structure GetDataResult where
  isGM : Bool
  displayDate : String
  formattedDate : String
  formattedTime : String
  weekday : String
  currentTemperature : String
  currentDescription : String
  weatherPanelOpen : Bool
  biomeSelections : List String
  seasonSelections : List String
  humiditySelections : List String
  climateSelections : List String
  hideWeather : Bool
  windowLeft : Int
  windowTop : Int
deriving DecidableEq, Repr

/-- `getData` (lines 61-82).  `gTemp` and `gDescr` stand for the
`WeatherData` methods `getTemperature` / `getDescription` whose source is
external; `useCelsius` and `dialogDisplay` are the module settings read; the
four selection lists are the constants imported from `climateData`. -/
def getData (gm useCelsius dialogDisplay : Bool)
    (gTemp : WeatherData → Bool → String) (gDescr : WeatherData → String)
    (biomeSel seasonSel humiditySel climateSel : List String)
    (weatherPanelOpen : Bool) (windowLeft windowTop : Int)
    (currentWeather : Option WeatherData) : GetDataResult :=
  let date := currentWeather.bind (fun w => w.date)
  { isGM := gm
    displayDate :=
      match date.bind (fun d => d.display) with
      | some disp => disp.date
      | none => ""
    formattedDate :=
      match date with
      | some d =>
          showField d.day ++ "/" ++ showField d.month ++ "/" ++
            showField d.year
      | none => ""
    formattedTime :=
      match date.bind (fun d => d.display) with
      | some disp => disp.time
      | none => ""
    weekday :=
      match date with
      | some d => d.weekdays.getD d.dayOfTheWeek ""
      | none => ""
    currentTemperature :=
      match currentWeather with
      | some w => gTemp w useCelsius
      | none => ""
    currentDescription :=
      match currentWeather with
      | some w => gDescr w
      | none => ""
    weatherPanelOpen := weatherPanelOpen
    biomeSelections := biomeSel
    seasonSelections := seasonSel
    humiditySelections := humiditySel
    climateSelections := climateSel
    hideWeather := if gm || dialogDisplay then false else true
    windowLeft := windowLeft
    windowTop := windowTop }

/-- Number of generation-collaborator invocations in an event log. -/
def numGenCalls (events : List Event) : Nat :=
  (events.filter fun e =>
    match e with
    | Event.genCall _ _ _ _ => true
    | _ => false).length

/-- Number of store-write invocations in an event log. -/
def numWrites (events : List Event) : Nat :=
  (events.filter fun e =>
    match e with
    | Event.storeWrite _ => true
    | _ => false).length

/-! Concrete fixtures used by witnesses and counterexamples. -/

/-- A fully populated (valid) snapshot at day 1 / month 1 / year 1000. -/
def snapDay1 : DateData :=
  { second := some 0, minute := some 0, day := some 1, month := some 1,
    year := some 1000, dayOfTheWeek := 0, weekdays := ["Monday"],
    display := none }

/-- `snapDay1` advanced by one calendar day (a material transition). -/
def snapDay2 : DateData := { snapDay1 with day := some 2 }

/-- `snapDay1` with only the minute advanced (a cosmetic transition). -/
def snapMinute : DateData := { snapDay1 with minute := some 30 }

/-- A present but invalid snapshot: the `second` field is null. -/
def snapInvalid : DateData := { snapDay1 with second := none }

/-- A concrete weather record generated for `snapDay1`. -/
def record1 : WeatherData := { date := some snapDay1, content := 7 }

/-- A state holding `record1` locally and in the store. -/
def st1 : AppState := { currentWeather := some record1, store := some record1 }

/-- A concrete generation collaborator used to instantiate `GenFn`. -/
def genConst : GenFn := fun _ _ _ _ => { date := none, content := 99 }

/-- Claim C1 (code bug): at the spec's scenario — previous record at day
1/1/1000, incoming snapshot at day 2/1/1000, authoritative client — the code
commits the incoming snapshot but makes zero generation calls and keeps the
previous content unchanged: the `generate` invocation on line 145 is
commented out behind a `console.log('TODO')`, contradicting the function's
own doc comment "generates new weather if the date has changed" (line 134)
and its log message "Generate new weather" (line 143). -/
theorem C1_material_update_makes_no_generation_call :
    numGenCalls (updateDateTime true true st1 (some snapDay2)).events = 0 ∧
      (updateDateTime true true st1 (some snapDay2)).state.currentWeather =
        some { record1 with date := some snapDay2 } ∧
      (updateDateTime true true st1 (some snapDay2)).state.store =
        some { record1 with date := some snapDay2 } := by
  decide

/-- Claim C2: on a material change observed while `isClientGM()` is false,
no store write and no generation call happen and the store is untouched —
the only mutation-capable path is behind the authority check on line 142. -/
theorem C2_nonauthoritative_material_never_writes (writeOk : Bool)
    (st : AppState) (cd : DateData)
    (hmat : hasDateChanged st.currentWeather (some cd) = true) :
    numWrites (updateDateTime false writeOk st (some cd)).events = 0 ∧
      numGenCalls (updateDateTime false writeOk st (some cd)).events = 0 ∧
      (updateDateTime false writeOk st (some cd)).state.store = st.store := by
  simp [updateDateTime, hmat, numWrites, numGenCalls]

/-- Witness for C2 at a concrete material transition. -/
theorem C2_nonauthoritative_material_never_writes_witness :
    hasDateChanged st1.currentWeather (some snapDay2) = true ∧
      numWrites (updateDateTime false true st1 (some snapDay2)).events = 0 := by
  exact ⟨by decide,
    (C2_nonauthoritative_material_never_writes true st1 snapDay2 (by decide)).1⟩

/-- Claim C3: with a held record whose snapshot is `p` and a valid incoming
snapshot `c`, `hasDateChanged` reports a change exactly when one of day,
month, year differs; a difference confined to second/minute reports none. -/
theorem C3_material_iff_date_component_differs (w : WeatherData)
    (p c : DateData) (hw : w.date = some p)
    (hp : isDateTimeValid p = true) (hc : isDateTimeValid c = true) :
    hasDateChanged (some w) (some c) = true ↔
      (c.day ≠ p.day ∨ c.month ≠ p.month ∨ c.year ≠ p.year) := by
  unfold hasDateChanged
  simp [hw, hc]
  tauto

/-- Witness for C3: a pure minute change is no change; a day change is. -/
theorem C3_material_iff_date_component_differs_witness :
    record1.date = some snapDay1 ∧ isDateTimeValid snapDay1 = true ∧
      isDateTimeValid snapMinute = true ∧
      ¬(hasDateChanged (some record1) (some snapMinute) = true) := by
  refine ⟨by decide, by decide, by decide, ?_⟩
  rw [C3_material_iff_date_component_differs record1 snapDay1 snapMinute
    (by decide) (by decide) (by decide)]
  decide

/-- Claim C4 is false as stated: with `previous` absent, a present but
invalid incoming snapshot (null `second`) is classified as a change — the
absent-previous check on line 187 fires before the validity check on
line 192 — not as no-change "regardless of previous". -/
theorem C4_counterexample_absent_previous_invalid_incoming :
    isDateTimeValid snapInvalid = false ∧
      hasDateChanged none (some snapInvalid) = true := by
  decide

/-- Claim C4 (amended): an invalid incoming snapshot is classified as
no-change whenever the previous snapshot is present; with `previous`
absent, a present incoming snapshot is classified as a change even when
invalid. -/
theorem C4_amended_invalid_incoming_none_when_previous_present
    (w : WeatherData) (p : DateData) (hw : w.date = some p) (c : DateData)
    (hc : isDateTimeValid c = false) :
    hasDateChanged (some w) (some c) = false ∧
      hasDateChanged none (some c) = true := by
  unfold hasDateChanged
  simp [hw, hc]

/-- Witness for the amended C4 at a concrete invalid snapshot. -/
theorem C4_amended_invalid_incoming_none_when_previous_present_witness :
    record1.date = some snapDay1 ∧ isDateTimeValid snapInvalid = false ∧
      hasDateChanged (some record1) (some snapInvalid) = false := by
  exact ⟨by decide, by decide,
    (C4_amended_invalid_incoming_none_when_previous_present record1 snapDay1
      (by decide) snapInvalid (by decide)).1⟩

/-- Claim C5 is false as stated: a material change observed by a
non-authoritative client leaves the locally held record untouched — the
cosmetic refresh on line 153 sits in the else-branch and only runs when the
date did not change, and the authoritative assignment on line 148 is behind
the authority check — so the incoming snapshot is not adopted. -/
theorem C5_counterexample_nonauthoritative_material_keeps_old_date :
    (updateDateTime false true st1 (some snapDay2)).state.currentWeather =
        some record1 ∧ record1.date ≠ some snapDay2 := by
  decide

/-- Claim C5 (amended): with a present incoming snapshot and a held record,
the record's time component is replaced with the incoming snapshot whenever
the change is not material or the instance is authoritative; a material
change seen by a non-authoritative instance leaves local state unchanged. -/
theorem C5_amended_time_component_refresh (gm writeOk : Bool) (st : AppState)
    (w : WeatherData) (hw : st.currentWeather = some w) (cd : DateData)
    (h : hasDateChanged st.currentWeather (some cd) = false ∨ gm = true) :
    ∃ w', (updateDateTime gm writeOk st (some cd)).state.currentWeather =
        some w' ∧ w'.date = some cd := by
  unfold updateDateTime
  rw [hw] at h
  rcases h with h | h
  · simp [h, hw]
  · subst h
    cases hmat : hasDateChanged st.currentWeather (some cd) <;>
      cases writeOk <;> simp [hw]

/-- Witness for the amended C5 at a concrete cosmetic transition. -/
theorem C5_amended_time_component_refresh_witness :
    st1.currentWeather = some record1 ∧
      (hasDateChanged st1.currentWeather (some snapMinute) = false ∨
        False = true) ∧
      ∃ w', (updateDateTime false true st1 (some snapMinute)).state.currentWeather =
          some w' ∧ w'.date = some snapMinute := by
  exact ⟨rfl, Or.inl (by decide),
    C5_amended_time_component_refresh false true st1 record1 rfl snapMinute
      (Or.inl (by decide))⟩

/-- Claim C6: bootstrap behavior of `setWeather` — a stored record is
adopted as-is with zero generation calls and zero writes regardless of
authority; an empty store with an authoritative client produces exactly one
generation call with the fixed defaults (Cold, Modest, Spring) and no seed
followed by exactly one write of that record, which is adopted; an empty
store with a non-authoritative client changes nothing. -/
theorem C6_bootstrap_loads_or_seeds (gen : GenFn) (gm writeOk : Bool)
    (st : AppState) :
    (∀ w, st.store = some w →
      (setWeather gen gm writeOk st).state.currentWeather = some w ∧
      numGenCalls (setWeather gen gm writeOk st).events = 0 ∧
      numWrites (setWeather gen gm writeOk st).events = 0) ∧
    (st.store = none → gm = true →
      (setWeather gen gm writeOk st).events =
        [Event.genCall Climate.Cold Humidity.Modest Season.Spring none,
          Event.storeWrite (gen Climate.Cold Humidity.Modest Season.Spring none),
          Event.render] ∧
      (setWeather gen gm writeOk st).state.currentWeather =
        some (gen Climate.Cold Humidity.Modest Season.Spring none)) ∧
    (st.store = none → gm = false →
      numGenCalls (setWeather gen gm writeOk st).events = 0 ∧
      numWrites (setWeather gen gm writeOk st).events = 0 ∧
      (setWeather gen gm writeOk st).state = st) := by
  refine ⟨fun w hw => ?_, fun hs hgm => ?_, fun hs hgm => ?_⟩
  · simp [setWeather, hw, numGenCalls, numWrites]
  · subst hgm; simp [setWeather, hs]
  · subst hgm; simp [setWeather, hs, numGenCalls, numWrites]

/-- Witness for C6: empty store, non-authoritative — nothing happens. -/
theorem C6_bootstrap_loads_or_seeds_witness :
    numGenCalls (setWeather genConst false true ⟨none, none⟩).events = 0 ∧
      (setWeather genConst false true ⟨none, none⟩).state =
        (⟨none, none⟩ : AppState) := by
  have h := (C6_bootstrap_loads_or_seeds genConst false true ⟨none, none⟩).2.2
    rfl rfl
  exact ⟨h.1, h.2.2⟩

/-- Claim C7 is false as stated: when the awaited store write rejects
during a material time update, the in-memory record has already been
mutated (the assignment on line 148 precedes the write on line 149), so the
local record differs from the unchanged store — a partial commit is
observable. -/
theorem C7_counterexample_failed_write_leaves_memory_mutated :
    (updateDateTime true false st1 (some snapDay2)).ok = false ∧
      numWrites (updateDateTime true false st1 (some snapDay2)).events = 1 ∧
      (updateDateTime true false st1 (some snapDay2)).state.store =
        st1.store ∧
      (updateDateTime true false st1 (some snapDay2)).state.currentWeather ≠
        st1.currentWeather := by
  decide

/-- Claim C7 (amended): when the store write fails during a committing
operation — time-driven commit or manual regeneration — the store slot is
left unchanged, but the in-memory record already holds the new value (the
local mutation precedes the write and is not rolled back). -/
theorem C7_amended_failed_write_keeps_store_not_memory (st : AppState)
    (w : WeatherData) (hw : st.currentWeather = some w) (cd : DateData)
    (hmat : hasDateChanged st.currentWeather (some cd) = true)
    (gen : GenFn) (h : Humidity) (c : Climate) (s : Season) :
    ((updateDateTime true false st (some cd)).state.store = st.store ∧
      (updateDateTime true false st (some cd)).state.currentWeather =
        some { w with date := some cd }) ∧
    ((onWeatherRegenerateClick gen false (some h) (some c) (some s)
        st).state.store = st.store ∧
      (onWeatherRegenerateClick gen false (some h) (some c) (some s)
        st).state.currentWeather = some (gen c h s st.currentWeather)) := by
  rw [hw] at hmat
  constructor
  · simp [updateDateTime, hmat, hw]
  · simp [onWeatherRegenerateClick]

/-- Witness for the amended C7 at a concrete material transition. -/
theorem C7_amended_failed_write_keeps_store_not_memory_witness :
    st1.currentWeather = some record1 ∧
      hasDateChanged st1.currentWeather (some snapDay2) = true ∧
      (updateDateTime true false st1 (some snapDay2)).state.store =
        st1.store := by
  exact ⟨rfl, by decide,
    (C7_amended_failed_write_keeps_store_not_memory st1 record1 rfl snapDay2
      (by decide) genConst Humidity.Modest Climate.Cold Season.Spring).1.1⟩

/-- A record whose snapshot already equals the incoming snapshot is never
classified as changed: day, month and year compare equal to themselves. -/
theorem hasDateChanged_self (w : WeatherData) (cd : DateData) :
    hasDateChanged (some { w with date := some cd }) (some cd) = false := by
  unfold hasDateChanged
  simp

/-- A time update whose date is classified as unchanged only re-renders. -/
theorem updateDateTime_no_change (gm writeOk : Bool) (st : AppState)
    (w : WeatherData) (cd : DateData) (hw : st.currentWeather = some w)
    (h : hasDateChanged st.currentWeather (some cd) = false) :
    (updateDateTime gm writeOk st (some cd)).events = [Event.render] := by
  rw [hw] at h
  unfold updateDateTime
  simp [h, hw]

/-- Claim C8: running `updateDateTime` twice with the same present, valid
incoming snapshot as the authoritative client writes at most once — the
first call adopts the snapshot, so the second call classifies the
transition as no-change and performs only the render refresh. -/
theorem C8_second_identical_update_never_writes (st : AppState)
    (w : WeatherData) (hw : st.currentWeather = some w) (cd : DateData)
    (hv : isDateTimeValid cd = true) :
    numWrites (updateDateTime true true st (some cd)).events ≤ 1 ∧
      hasDateChanged
        (updateDateTime true true st (some cd)).state.currentWeather
        (some cd) = false ∧
      (updateDateTime true true
        (updateDateTime true true st (some cd)).state (some cd)).events =
        [Event.render] := by
  have hstep :
      (updateDateTime true true st (some cd)).state.currentWeather =
        some { w with date := some cd } ∧
      numWrites (updateDateTime true true st (some cd)).events ≤ 1 := by
    unfold updateDateTime
    cases hmat : hasDateChanged st.currentWeather (some cd) <;>
      simp [hw, numWrites]
  have hnone :
      hasDateChanged
        (updateDateTime true true st (some cd)).state.currentWeather
        (some cd) = false := by
    rw [hstep.1]
    exact hasDateChanged_self w cd
  exact ⟨hstep.2, hnone,
    updateDateTime_no_change true true _ _ cd hstep.1 hnone⟩

/-- Witness for C8 at a concrete material transition. -/
theorem C8_second_identical_update_never_writes_witness :
    st1.currentWeather = some record1 ∧ isDateTimeValid snapDay2 = true ∧
      (updateDateTime true true
        (updateDateTime true true st1 (some snapDay2)).state
        (some snapDay2)).events = [Event.render] := by
  exact ⟨rfl, by decide,
    (C8_second_identical_update_never_writes st1 record1 rfl snapDay2
      (by decide)).2.2⟩

/-- Claim C9: a manual regeneration request with any of humidity, climate,
season missing is rejected with no generation call, no write, and an
unchanged state; with all three present, generation runs with the supplied
parameters and the current record as seed, and the result is adopted and
written. -/
theorem C9_manual_regeneration_requires_all_parameters (gen : GenFn)
    (writeOk : Bool) (st : AppState) (hum : Option Humidity)
    (cl : Option Climate) (se : Option Season) :
    ((hum = none ∨ cl = none ∨ se = none) →
      onWeatherRegenerateClick gen writeOk hum cl se st = ⟨st, [], true⟩) ∧
    (∀ h c s, hum = some h → cl = some c → se = some s →
      (onWeatherRegenerateClick gen writeOk hum cl se st).events =
        [Event.genCall c h s st.currentWeather,
          Event.storeWrite (gen c h s st.currentWeather), Event.render] ∧
      (onWeatherRegenerateClick gen writeOk hum cl se st).state.currentWeather =
        some (gen c h s st.currentWeather)) := by
  constructor
  · intro hmiss
    cases hum <;> cases cl <;> cases se <;>
      simp_all [onWeatherRegenerateClick]
  · intro h c s hh hc hs
    subst hh; subst hc; subst hs
    simp [onWeatherRegenerateClick]

/-- Witness for C9: absent climate rejects the request outright. -/
theorem C9_manual_regeneration_requires_all_parameters_witness :
    ((some Humidity.Modest : Option Humidity) = none ∨
        (none : Option Climate) = none ∨
        (some Season.Spring : Option Season) = none) ∧
      onWeatherRegenerateClick genConst true (some Humidity.Modest) none
        (some Season.Spring) st1 = ⟨st1, [], true⟩ := by
  refine ⟨Or.inr (Or.inl rfl), ?_⟩
  exact (C9_manual_regeneration_requires_all_parameters genConst true st1
    (some Humidity.Modest) none (some Season.Spring)).1
    (Or.inr (Or.inl rfl))

/-- Claim C10: with no weather record loaded, `getData` returns the empty
string for every weather-derived display field while still passing through
the selection lists and the window position (every access is behind an
optional-chaining or truthiness guard, so nothing fails). -/
theorem C10_getData_total_on_absent_record (gm useCelsius dialogDisplay : Bool)
    (gTemp : WeatherData → Bool → String) (gDescr : WeatherData → String)
    (biomeSel seasonSel humiditySel climateSel : List String)
    (panelOpen : Bool) (wl wt : Int) :
    getData gm useCelsius dialogDisplay gTemp gDescr biomeSel seasonSel
        humiditySel climateSel panelOpen wl wt none =
      { isGM := gm, displayDate := "", formattedDate := "",
        formattedTime := "", weekday := "", currentTemperature := "",
        currentDescription := "", weatherPanelOpen := panelOpen,
        biomeSelections := biomeSel, seasonSelections := seasonSel,
        humiditySelections := humiditySel, climateSelections := climateSel,
        hideWeather := if gm || dialogDisplay then false else true,
        windowLeft := wl, windowTop := wt } := by
  rfl

end SimpleWeather
